import Mathlib

/-!
Verification of the fp_016 "maintenance" check.

A shallow embedding of `util/principles/fp_016.py`, the OBO dashboard
"maintenance" automated check, together with theorems settling the frozen
claims about it.

Modelling conventions:
* Python strings are `List Char` (the concrete statements use `String.data`).
* The wall clock is an explicit parameter `now : Int`, measured in seconds;
  a `datetime.datetime(y, m, d)` value is the proleptic-Gregorian ordinal of
  the date multiplied by 86400 (seconds per day).  All comparisons in the
  source are order comparisons of datetimes, so any fixed sub-day granularity
  models them faithfully; the claims only involve whole-day offsets.
* A Python function that can raise returns `Option`: `none` models an
  exception escaping (the only raising site is `datetime.datetime(...)` on a
  semantically invalid captured date).
* `re.search(vpat, s)` is modelled by `vsearch`: the pattern
  `http:\/\/purl\.obolibrary\.org/obo/.*/([0-9]{4}-[0-9]{2}-[0-9]{2})/.*`
  matches at the leftmost position where the literal prefix is followed by a
  newline-free run, a `/`, ten date-shaped characters, and a `/` (the final
  `.*` is unconstrained since it may be empty); `.` does not match a newline
  and `.*` is greedy, so the captured group is the rightmost eligible date
  after the chosen start position.
-/

/-- The literal prefix of the version-IRI pattern `vpat`
(`fp_016.py` line 18): `http://purl.obolibrary.org/obo/`. -/
def oboIriStart : List Char := "http://purl.obolibrary.org/obo/".data

/-- The group `[0-9]{4}-[0-9]{2}-[0-9]{2}`: ten characters, four digits, a hyphen,
two digits, a hyphen, two digits.  `[0-9]` matches exactly the ASCII digits,
as `Char.isDigit` does. -/
def dateShape (t : List Char) : Bool :=
  match t with
  | [c1, c2, c3, c4, c5, c6, c7, c8, c9, c10] =>
    c1.isDigit && c2.isDigit && c3.isDigit && c4.isDigit && c5 = '-' &&
    c6.isDigit && c7.isDigit && c8 = '-' && c9.isDigit && c10.isDigit
  | _ => false

/-- Try to match `/YYYY-MM-DD/` at the head of `t`, returning the captured
ten-character date.  This is the `/([0-9]{4}-[0-9]{2}-[0-9]{2})/` part of
`vpat`; the trailing `.*` of the pattern may be empty, so nothing after the
second slash is constrained. -/
def dateSlash (t : List Char) : Option (List Char) :=
  match t with
  | c0 :: c1 :: c2 :: c3 :: c4 :: c5 :: c6 :: c7 :: c8 :: c9 :: c10 :: c11 :: _ =>
    if c0 = '/' && c1.isDigit && c2.isDigit && c3.isDigit && c4.isDigit &&
       c5 = '-' && c6.isDigit && c7.isDigit && c8 = '-' && c9.isDigit &&
       c10.isDigit && c11 = '/'
    then some [c1, c2, c3, c4, c5, c6, c7, c8, c9, c10]
    else none
  | _ => none

/-- The `.*/(date)/.*` tail of `vpat` after the literal prefix, with Python
semantics: `.*` is greedy and `.` does not match `'\n'`, so the capture is
the date at the rightmost position reachable without crossing a newline.
Deeper matches are preferred, which realises greediness. -/
def greedyDate : List Char → Option (List Char)
  | [] => none
  | c :: rest =>
    if c = '\n' then none
    else
      match greedyDate rest with
      | some d => some d
      | none => dateSlash (c :: rest)

/-- Model of `re.search(vpat, version_iri)` (`fp_016.py` line 85): scan positions
left to right; at the leftmost position where the literal prefix matches and
a greedy date capture exists, return that capture. -/
def vsearch : List Char → Option (List Char)
  | [] => none
  | c :: rest =>
    match
      (if oboIriStart.isPrefixOf (c :: rest)
       then greedyDate ((c :: rest).drop oboIriStart.length)
       else none) with
    | some d => some d
    | none => vsearch rest

/-- Model of `date.split('-')` (`fp_016.py` line 88). -/
def splitDash : List Char → List (List Char)
  | [] => [[]]
  | c :: rest =>
    if c = '-' then [] :: splitDash rest
    else
      match splitDash rest with
      | g :: gs => (c :: g) :: gs
      | [] => [[c]]

/-- Model of Python `int(...)` on a string of ASCII digits. -/
def digitsToNat (l : List Char) : Nat :=
  l.foldl (fun a c => a * 10 + (c.toNat - 48)) 0

/-- Gregorian leap-year rule, as used by `datetime.date`. -/
def isLeap (y : Nat) : Bool :=
  y % 4 = 0 && (y % 100 ≠ 0 || y % 400 = 0)

/-- Number of days in month `m` of year `y` (Gregorian calendar). -/
def daysInMonth (y m : Nat) : Nat :=
  if m = 2 then (if isLeap y then 29 else 28)
  else if m = 4 ∨ m = 6 ∨ m = 9 ∨ m = 11 then 30
  else 31

/-- Days in year `y` strictly before month `m`. -/
def daysBeforeMonth (y m : Nat) : Nat :=
  (match m with
   | 1 => 0 | 2 => 31 | 3 => 59 | 4 => 90 | 5 => 120 | 6 => 151
   | 7 => 181 | 8 => 212 | 9 => 243 | 10 => 273 | 11 => 304 | _ => 334)
  + (if 2 < m ∧ isLeap y then 1 else 0)

/-- Proleptic-Gregorian ordinal of the date `(y, m, d)`, with
0001-01-01 as day 1 (as `datetime.date.toordinal`). -/
def toOrdinal (y m d : Nat) : Nat :=
  365 * (y - 1) + (y - 1) / 4 - (y - 1) / 100 + (y - 1) / 400
    + daysBeforeMonth y m + d

/-- Model of `datetime.datetime(y, m, d)` (`fp_016.py` lines 89-90), as seconds since
the day before 0001-01-01: `some` of the midnight timestamp when the
components form a valid calendar date, `none` when the constructor raises
`ValueError` (year outside 1..9999, month outside 1..12, or day outside the
month). -/
def datetimeSeconds (y m d : Nat) : Option Int :=
  if 1 ≤ y ∧ y ≤ 9999 ∧ 1 ≤ m ∧ m ≤ 12 ∧ 1 ≤ d ∧ d ≤ daysInMonth y m
  then some ((toOrdinal y m d : Int) * 86400)
  else none

/-- Lines 88-90 of `fp_016.py`: split the captured date on `'-'` and build
the datetime from the three integer components. -/
def parseDate (date : List Char) : Option Int :=
  match splitDash date with
  | [ys, ms, ds] => datetimeSeconds (digitsToNat ys) (digitsToNat ms) (digitsToNat ds)
  | _ => none

/-- A value returned by the check: either the literal string `'PASS'` or the
result of the external formatter applied to a severity tag and messages. -/
inductive CheckResult where
  | pass : CheckResult
  | formatted : String → List String → CheckResult
deriving DecidableEq, Repr

/-- Modelled from the spec: `dash_utils.format_msg` is an external formatting
collaborator whose code is not in this repository; the spec says the check
supplies "the severity tag and message text, in that order, as a two-element
input to it".  We model its result as that pair itself. -/
def format_msg (severity : String) (messages : List String) : CheckResult :=
  CheckResult.formatted severity messages

/-- The template `old_version_msg` (`fp_016.py` line 21) with its two format arguments
substituted. -/
def old_version_msg (date yrs : String) : String :=
  "last version (" ++ date ++ ") is over " ++ yrs ++ " year(s) old"

/-- Lines 92-113 of `fp_016.py`: the threshold chain on a successfully
constructed version date `v` (in seconds), with the original capture `date`
used in the messages.  `now - 3*365 days`, `now - 2*365 days`,
`now - 365 days`, strict `<` comparisons, first match wins. -/
def classify (now : Int) (date : List Char) (v : Int) : CheckResult :=
  if v < now - 1095 * 86400 then
    format_msg "ERROR" [old_version_msg (String.mk date) "three"]
  else if v < now - 730 * 86400 then
    format_msg "WARN" [old_version_msg (String.mk date) "two"]
  else if v < now - 365 * 86400 then
    format_msg "INFO" [old_version_msg (String.mk date) "one"]
  else CheckResult.pass

/-- Model of `check_version_iri` (`fp_016.py` lines 74-117).  `none` models the
`ValueError` raised by `datetime.datetime` on a semantically invalid
captured date escaping the function. -/
def check_version_iri (now : Int) (version_iri : List Char) : Option CheckResult :=
  match vsearch version_iri with
  | some date =>
    match parseDate date with
    | some v => some (classify now date v)
    | none => none
  | none => some (format_msg "INFO" ["version IRI does not have date information"])

/-- Model of `is_maintained` (`fp_016.py` lines 24-44).  The argument models the
ontology handle: `none` when the ontology is `None`, `some none` when
`getVersionIRI().orNull()` is null, `some (some v)` when the version IRI is
present with string value `v`. -/
def is_maintained (now : Int) (ontology : Option (Option (List Char))) : Option CheckResult :=
  match ontology with
  | none => some (format_msg "INFO" ["unable to load ontology"])
  | some none => some (format_msg "INFO" ["missing version IRI to check date"])
  | some (some version_iri) => check_version_iri now version_iri

/-- Model of `big_is_maintained` (`fp_016.py` lines 47-71).  The argument models the
result of the external scanner `dash_utils.get_version_iri(file)`: a string
(possibly empty) or `None`. -/
def big_is_maintained (now : Int) (version_iri : Option (List Char)) : Option CheckResult :=
  match version_iri with
  | some v =>
    if v ≠ [] then check_version_iri now v
    else some (format_msg "INFO" ["missing version IRI to check date"])
  | none => some (format_msg "INFO" ["unable to parse ontology"])

/-- Rank of a result in the severity order PASS < INFO < WARN < ERROR. -/
def sevRank (r : CheckResult) : Nat :=
  match r with
  | CheckResult.pass => 0
  | CheckResult.formatted sev _ =>
    if sev = "ERROR" then 3 else if sev = "WARN" then 2
    else if sev = "INFO" then 1 else 0

/-- The output contract shape: the literal `'PASS'` or one severity tag from
INFO/WARN/ERROR with exactly one message string. -/
def goodShape (r : CheckResult) : Prop :=
  r = CheckResult.pass ∨
    ∃ m, r = format_msg "INFO" [m] ∨ r = format_msg "WARN" [m] ∨
      r = format_msg "ERROR" [m]

/-- C1: for a version IRI matching the date pattern whose embedded date is
exactly `k` days before now, the check returns ERROR when `k > 1095`, WARN
when `730 < k ≤ 1095`, INFO when `365 < k ≤ 730`, and PASS when `k ≤ 365`;
each threshold is strict and the first matching one alone gives the result. -/
theorem C1_staleness_thresholds (now v k : Int) (s date : List Char)
    (hs : vsearch s = some date) (hp : parseDate date = some v)
    (hnow : now = v + k * 86400) :
    (1095 < k → check_version_iri now s =
      some (format_msg "ERROR" [old_version_msg (String.mk date) "three"])) ∧
    (730 < k → k ≤ 1095 → check_version_iri now s =
      some (format_msg "WARN" [old_version_msg (String.mk date) "two"])) ∧
    (365 < k → k ≤ 730 → check_version_iri now s =
      some (format_msg "INFO" [old_version_msg (String.mk date) "one"])) ∧
    (k ≤ 365 → check_version_iri now s = some CheckResult.pass) := by
  subst hnow
  simp only [check_version_iri, hs, hp, classify]
  refine ⟨fun h => ?_, fun h h' => ?_, fun h h' => ?_, fun h => ?_⟩
  · rw [if_pos (by omega)]
  · rw [if_neg (by omega), if_pos (by omega)]
  · rw [if_neg (by omega), if_neg (by omega), if_pos (by omega)]
  · rw [if_neg (by omega), if_neg (by omega), if_neg (by omega)]

/-- Witness for C1 at the spec's own example IRI, 1200 days old. -/
theorem C1_staleness_thresholds_witness :
    check_version_iri (63695030400 + 1200 * 86400)
      ("http://purl.obolibrary.org/obo/go/2019-06-01/go.owl".data) =
      some (format_msg "ERROR" [old_version_msg "2019-06-01" "three"]) := by
  have h := C1_staleness_thresholds (63695030400 + 1200 * 86400) 63695030400 1200
    ("http://purl.obolibrary.org/obo/go/2019-06-01/go.owl".data) ("2019-06-01".data)
    (by decide) (by decide) (by norm_num)
  exact h.1 (by norm_num)

/-- C4: a string that does not match the fixed date pattern yields
INFO "version IRI does not have date information", whatever its content. -/
theorem C4_no_date_info (now : Int) (s : List Char) (h : vsearch s = none) :
    check_version_iri now s =
      some (format_msg "INFO" ["version IRI does not have date information"]) := by
  simp [check_version_iri, h]

/-- Witness for C4 at the spec's dateless example IRI. -/
theorem C4_no_date_info_witness :
    check_version_iri 0 ("http://purl.obolibrary.org/obo/go/go.owl".data) =
      some (format_msg "INFO" ["version IRI does not have date information"]) :=
  C4_no_date_info 0 ("http://purl.obolibrary.org/obo/go/go.owl".data) (by decide)

/-- C5: `is_maintained` returns INFO "unable to load ontology" on a null
handle, INFO "missing version IRI to check date" when the handle has no
version IRI, and otherwise exactly `check_version_iri` of the IRI string. -/
theorem C5_is_maintained_mapping (now : Int) :
    is_maintained now none = some (format_msg "INFO" ["unable to load ontology"]) ∧
    is_maintained now (some none) =
      some (format_msg "INFO" ["missing version IRI to check date"]) ∧
    ∀ v : List Char, is_maintained now (some (some v)) = check_version_iri now v :=
  ⟨rfl, rfl, fun _ => rfl⟩

/-- C6: `big_is_maintained` maps a non-empty scanner result to
`check_version_iri`, an empty string to INFO "missing version IRI to check
date", and an absent result to INFO "unable to parse ontology". -/
theorem C6_big_is_maintained_mapping (now : Int) :
    (∀ v : List Char, v ≠ [] →
      big_is_maintained now (some v) = check_version_iri now v) ∧
    big_is_maintained now (some []) =
      some (format_msg "INFO" ["missing version IRI to check date"]) ∧
    big_is_maintained now none =
      some (format_msg "INFO" ["unable to parse ontology"]) := by
  refine ⟨fun v hv => ?_, rfl, rfl⟩
  simp [big_is_maintained, hv]

/-- Witness for C6 on a one-character scanner result. -/
theorem C6_big_is_maintained_mapping_witness :
    big_is_maintained 0 (some ("x".data)) = check_version_iri 0 ("x".data) :=
  (C6_big_is_maintained_mapping 0).1 ("x".data) (by decide)

/-- C8: with a fixed wall-clock reading, two calls of `check_version_iri`
on the same string return identical results. -/
theorem C8_deterministic (now : Int) (s : List Char) :
    check_version_iri now s = check_version_iri now s := rfl

/-- Counterexample to C3: on a version IRI whose captured digits form the
semantically invalid calendar date 2024-02-30, the datetime construction
raises (modelled as `none`): no classification string is returned. -/
theorem C3_invalid_date_raises :
    check_version_iri 0 ("http://purl.obolibrary.org/obo/x/2024-02-30/y.owl".data)
      = none := by decide

/-- C3 (amended): `check_version_iri` returns a classification for every
input except exactly those whose captured date is semantically invalid as a
calendar date; on those the date construction error escapes. -/
theorem C3_exception_boundary (now : Int) (s : List Char) :
    check_version_iri now s = none ↔
      ∃ d, vsearch s = some d ∧ parseDate d = none := by
  cases h : vsearch s with
  | none => simp [check_version_iri, h]
  | some d =>
    cases hp : parseDate d with
    | none => simp [check_version_iri, h, hp]
    | some v => simp [check_version_iri, h, hp]

/-- Witness for C3 (amended) at a concrete valid-date IRI. -/
theorem C3_exception_boundary_witness :
    (check_version_iri 0 ("http://purl.obolibrary.org/obo/go/2019-06-01/go.owl".data)
        = none ↔
      ∃ d, vsearch ("http://purl.obolibrary.org/obo/go/2019-06-01/go.owl".data)
        = some d ∧ parseDate d = none) :=
  C3_exception_boundary 0 ("http://purl.obolibrary.org/obo/go/2019-06-01/go.owl".data)

/-- Every threshold-chain result is `'PASS'` or one tagged message. -/
theorem goodShape_classify (now : Int) (date : List Char) (v : Int) :
    goodShape (classify now date v) := by
  unfold classify
  split_ifs with h1 h2 h3
  · exact Or.inr ⟨_, Or.inr (Or.inr rfl)⟩
  · exact Or.inr ⟨_, Or.inr (Or.inl rfl)⟩
  · exact Or.inr ⟨_, Or.inl rfl⟩
  · exact Or.inl rfl

/-- Every value returned by `check_version_iri` is `'PASS'` or one tagged
message. -/
theorem goodShape_check (now : Int) (s : List Char) (r : CheckResult)
    (h : check_version_iri now s = some r) : goodShape r := by
  cases hv : vsearch s with
  | none =>
    simp [check_version_iri, hv] at h
    exact h ▸ Or.inr ⟨_, Or.inl rfl⟩
  | some d =>
    cases hp : parseDate d with
    | none => simp [check_version_iri, hv, hp] at h
    | some v =>
      simp [check_version_iri, hv, hp] at h
      exact h ▸ goodShape_classify now d v

/-- C7: each public entry point returns the literal `'PASS'` or a message
formatted from one severity tag in INFO/WARN/ERROR with exactly one
explanatory string, and the date in any staleness message is the original
YYYY-MM-DD capture from the version IRI. -/
theorem C7_output_contract :
    (∀ now : Int, ∀ s : List Char, ∀ r : CheckResult,
        check_version_iri now s = some r → goodShape r) ∧
    (∀ now : Int, ∀ o : Option (Option (List Char)), ∀ r : CheckResult,
        is_maintained now o = some r → goodShape r) ∧
    (∀ now : Int, ∀ f : Option (List Char), ∀ r : CheckResult,
        big_is_maintained now f = some r → goodShape r) ∧
    (∀ now v : Int, ∀ s date : List Char, ∀ sev m : String,
        vsearch s = some date → parseDate date = some v →
        check_version_iri now s = some (CheckResult.formatted sev [m]) →
        ∃ yrs, m = old_version_msg (String.mk date) yrs) := by
  have hchk : ∀ now : Int, ∀ s : List Char, ∀ r : CheckResult,
      check_version_iri now s = some r → goodShape r := goodShape_check
  refine ⟨hchk, ?_, ?_, ?_⟩
  · intro now o r h
    match o with
    | none =>
      simp [is_maintained] at h
      exact h ▸ Or.inr ⟨_, Or.inl rfl⟩
    | some none =>
      simp [is_maintained] at h
      exact h ▸ Or.inr ⟨_, Or.inl rfl⟩
    | some (some v) => exact hchk now v r h
  · intro now f r h
    match f with
    | none =>
      simp [big_is_maintained] at h
      exact h ▸ Or.inr ⟨_, Or.inl rfl⟩
    | some v =>
      by_cases hv : v = []
      · subst hv
        simp [big_is_maintained] at h
        exact h ▸ Or.inr ⟨_, Or.inl rfl⟩
      · rw [big_is_maintained, if_pos hv] at h
        exact hchk now v r h
  · intro now v s date sev m hs hp h
    simp [check_version_iri, hs, hp] at h
    unfold classify at h
    split_ifs at h with h1 h2 h3
    · simp only [format_msg, CheckResult.formatted.injEq, List.cons.injEq,
        and_true] at h
      exact ⟨"three", h.2.symm⟩
    · simp only [format_msg, CheckResult.formatted.injEq, List.cons.injEq,
        and_true] at h
      exact ⟨"two", h.2.symm⟩
    · simp only [format_msg, CheckResult.formatted.injEq, List.cons.injEq,
        and_true] at h
      exact ⟨"one", h.2.symm⟩

/-- Witness for C7 via its first conjunct at a concrete input. -/
theorem C7_output_contract_witness :
    goodShape (format_msg "INFO" ["version IRI does not have date information"]) :=
  C7_output_contract.1 0 ("x".data)
    (format_msg "INFO" ["version IRI does not have date information"]) (by decide)

theorem sevRank_pass : sevRank CheckResult.pass = 0 := rfl

theorem sevRank_error (l : List String) :
    sevRank (CheckResult.formatted "ERROR" l) = 3 := rfl

theorem sevRank_warn (l : List String) :
    sevRank (CheckResult.formatted "WARN" l) = 2 := rfl

theorem sevRank_info (l : List String) :
    sevRank (CheckResult.formatted "INFO" l) = 1 := rfl

/-- C10: with a fixed wall clock, the severity of the result is monotone in
the age of the parsed date: an older (smaller) parsed date never gets a
strictly lower severity, in the order PASS < INFO < WARN < ERROR. -/
theorem C10_severity_monotone (now v1 v2 : Int) (s1 s2 d1 d2 : List Char)
    (r1 r2 : CheckResult)
    (h1 : vsearch s1 = some d1) (hp1 : parseDate d1 = some v1)
    (h2 : vsearch s2 = some d2) (hp2 : parseDate d2 = some v2)
    (hle : v1 ≤ v2)
    (hr1 : check_version_iri now s1 = some r1)
    (hr2 : check_version_iri now s2 = some r2) :
    sevRank r2 ≤ sevRank r1 := by
  simp [check_version_iri, h1, hp1] at hr1
  simp [check_version_iri, h2, hp2] at hr2
  rw [← hr1, ← hr2]
  unfold classify format_msg
  split_ifs <;>
    simp only [sevRank_pass, sevRank_error, sevRank_warn, sevRank_info] <;>
    omega

/-- An ASCII digit is not a slash. -/
theorem isDigit_ne_slash (c : Char) (h : c.isDigit = true) : ¬ ('/' = c) := by
  intro he
  rw [← he] at h
  exact absurd h (by decide)

/-- An ASCII digit is not a newline. -/
theorem isDigit_ne_newline (c : Char) (h : c.isDigit = true) : ¬ ('\n' = c) := by
  intro he
  rw [← he] at h
  exact absurd h (by decide)

/-- A successful `/YYYY-MM-DD/` match contains at least two slashes. -/
theorem dateSlash_two_slashes (t d : List Char) (h : dateSlash t = some d) :
    2 ≤ t.count '/' := by
  unfold dateSlash at h
  split at h
  case _ c0 c1 c2 c3 c4 c5 c6 c7 c8 c9 c10 c11 rest =>
    split_ifs at h with hc
    simp only [Bool.and_eq_true, decide_eq_true_eq] at hc
    have h0 : c0 = '/' := hc.1.1.1.1.1.1.1.1.1.1.1
    have h11 : c11 = '/' := hc.2
    subst h0; subst h11
    have he : ('/' :: c1 :: c2 :: c3 :: c4 :: c5 :: c6 :: c7 :: c8 :: c9 ::
        c10 :: '/' :: rest)
        = '/' :: ([c1, c2, c3, c4, c5, c6, c7, c8, c9, c10] ++ '/' :: rest) := rfl
    rw [he, List.count_cons_self, List.count_append, List.count_cons_self]
    omega
  case _ => exact absurd h (by simp)

/-- A list with at most one slash has no greedy date capture. -/
theorem greedyDate_eq_none (t : List Char) (h : t.count '/' ≤ 1) :
    greedyDate t = none := by
  induction t with
  | nil => rfl
  | cons c rest ih =>
    have hr : rest.count '/' ≤ 1 :=
      le_trans (List.count_le_count_cons '/' c rest) h
    rw [greedyDate]
    by_cases hc : c = '\n'
    · simp [hc]
    · rw [if_neg hc, ih hr]
      cases hd : dateSlash (c :: rest) with
      | none => rfl
      | some d => exact absurd (dateSlash_two_slashes _ _ hd) (by omega)

/-- Structural facts about a ten-character date capture: it contains no
slash and no newline, and `/` ++ date ++ `/` ++ anything matches `dateSlash`
with exactly the date as capture. -/
theorem dateShape_elim (D : List Char) (h : dateShape D = true) :
    D.count '/' = 0 ∧ '\n' ∉ D ∧
      ∀ B : List Char, dateSlash ('/' :: (D ++ '/' :: B)) = some D := by
  unfold dateShape at h
  split at h
  case _ c1 c2 c3 c4 c5 c6 c7 c8 c9 c10 =>
    simp only [Bool.and_eq_true, decide_eq_true_eq] at h
    have d1 : c1.isDigit = true := h.1.1.1.1.1.1.1.1.1
    have d2 : c2.isDigit = true := h.1.1.1.1.1.1.1.1.2
    have d3 : c3.isDigit = true := h.1.1.1.1.1.1.1.2
    have d4 : c4.isDigit = true := h.1.1.1.1.1.1.2
    have e5 : c5 = '-' := h.1.1.1.1.1.2
    have d6 : c6.isDigit = true := h.1.1.1.1.2
    have d7 : c7.isDigit = true := h.1.1.1.2
    have e8 : c8 = '-' := h.1.1.2
    have d9 : c9.isDigit = true := h.1.2
    have d10 : c10.isDigit = true := h.2
    subst e5; subst e8
    have nsd : ¬ ('/' = ('-' : Char)) := by decide
    have nnd : ¬ ('\n' = ('-' : Char)) := by decide
    refine ⟨?_, ?_, ?_⟩
    · simp [List.count_cons, beq_iff_eq, isDigit_ne_slash _ d1,
        isDigit_ne_slash _ d2, isDigit_ne_slash _ d3, isDigit_ne_slash _ d4,
        isDigit_ne_slash _ d6, isDigit_ne_slash _ d7, isDigit_ne_slash _ d9,
        isDigit_ne_slash _ d10, nsd]
    · simp [List.mem_cons, isDigit_ne_newline _ d1, isDigit_ne_newline _ d2,
        isDigit_ne_newline _ d3, isDigit_ne_newline _ d4,
        isDigit_ne_newline _ d6, isDigit_ne_newline _ d7,
        isDigit_ne_newline _ d9, isDigit_ne_newline _ d10, nnd]
    · intro B
      show dateSlash ('/' :: c1 :: c2 :: c3 :: c4 :: '-' :: c6 :: c7 :: '-' ::
          c9 :: c10 :: '/' :: B) = some [c1, c2, c3, c4, '-', c6, c7, '-', c9, c10]
      simp [dateSlash, d1, d2, d3, d4, d6, d7, d9, d10]
  case _ => exact absurd h (by simp)

/-- Greediness: a newline-free run prepended to a list with a capture does
not change the capture (the deeper match is preferred). -/
theorem greedyDate_append (t1 t2 d : List Char) (h1 : '\n' ∉ t1)
    (h2 : greedyDate t2 = some d) : greedyDate (t1 ++ t2) = some d := by
  induction t1 with
  | nil => simpa using h2
  | cons c t ih =>
    have hc : ¬ c = '\n' := fun he => h1 (by rw [he]; exact List.mem_cons_self _ _)
    have ht : '\n' ∉ t := fun hm => h1 (List.mem_cons_of_mem c hm)
    rw [List.cons_append, greedyDate, if_neg hc, ih ht]

/-- At a slash followed by a date, a slash, and a slash-free tail, the
greedy capture is exactly that date. -/
theorem greedyDate_at_date (D B : List Char) (hD : dateShape D = true)
    (hB : '/' ∉ B) : greedyDate ('/' :: (D ++ '/' :: B)) = some D := by
  obtain ⟨hc, -, hds⟩ := dateShape_elim D hD
  have hinner : greedyDate (D ++ '/' :: B) = none := by
    apply greedyDate_eq_none
    rw [List.count_append, hc, List.count_cons_self,
      List.count_eq_zero.mpr hB]
  rw [greedyDate, if_neg (by decide), hinner]
  exact hds B

/-- Any list with a slash, a date, and a slash at some newline-reachable
position has a greedy capture. -/
theorem greedyDate_isSome (A D B : List Char) (hA : '\n' ∉ A)
    (hD : dateShape D = true) :
    (greedyDate (A ++ '/' :: (D ++ '/' :: B))).isSome = true := by
  cases hi : greedyDate ('/' :: (D ++ '/' :: B)) with
  | some d => rw [greedyDate_append A _ d hA hi]; rfl
  | none =>
    exfalso
    rw [greedyDate, if_neg (by decide)] at hi
    cases hj : greedyDate (D ++ '/' :: B) with
    | some d' => rw [hj] at hi; exact absurd hi (by simp)
    | none =>
      rw [hj, (dateShape_elim D hD).2.2 B] at hi
      exact absurd hi (by simp)

/-- A match directly after the literal prefix is what `vsearch` returns. -/
theorem vsearch_start (t d : List Char) (h : greedyDate t = some d) :
    vsearch (oboIriStart ++ t) = some d := by
  have hpre : oboIriStart.isPrefixOf (oboIriStart ++ t) = true := by
    simp
  have hdrop : (oboIriStart ++ t).drop oboIriStart.length = t :=
    List.drop_left _ _
  cases hs : oboIriStart ++ t with
  | nil => exact absurd hs (by simp [oboIriStart])
  | cons c rest =>
    rw [vsearch, ← hs, hpre]
    simp [hdrop, h]

/-- Searching a longer string still succeeds when a suffix already has a
match somewhere. -/
theorem vsearch_prepend (u t : List Char) (h : (vsearch t).isSome = true) :
    (vsearch (u ++ t)).isSome = true := by
  induction u with
  | nil => simpa using h
  | cons c u ih =>
    rw [List.cons_append, vsearch]
    cases hloc : (if oboIriStart.isPrefixOf (c :: (u ++ t))
        then greedyDate ((c :: (u ++ t)).drop oboIriStart.length)
        else none) with
    | some d => rfl
    | none => exact ih

/-- A `dateSlash` capture has exactly ten characters. -/
theorem dateSlash_length (t d : List Char) (h : dateSlash t = some d) :
    d.length = 10 := by
  unfold dateSlash at h
  split at h
  · split_ifs at h with hc
    · cases h; rfl
  · exact absurd h (by simp)

/-- A greedy capture has exactly ten characters. -/
theorem greedyDate_length (t d : List Char) (h : greedyDate t = some d) :
    d.length = 10 := by
  induction t with
  | nil => exact absurd h (by simp [greedyDate])
  | cons c rest ih =>
    rw [greedyDate] at h
    split_ifs at h with hc
    cases hg : greedyDate rest with
    | some d' =>
      rw [hg] at h
      cases h
      exact ih hg
    | none =>
      rw [hg] at h
      exact dateSlash_length _ _ h

/-- A `vsearch` capture has exactly ten characters. -/
theorem vsearch_length (s d : List Char) (h : vsearch s = some d) :
    d.length = 10 := by
  induction s with
  | nil => exact absurd h (by simp [vsearch])
  | cons c rest ih =>
    rw [vsearch] at h
    cases hloc : (if oboIriStart.isPrefixOf (c :: rest)
        then greedyDate ((c :: rest).drop oboIriStart.length)
        else none) with
    | some d' =>
      rw [hloc] at h
      cases h
      split_ifs at hloc with hp
      exact greedyDate_length _ _ hloc
    | none =>
      rw [hloc] at h
      exact ih h

/-- A staleness message never equals the no-date-information message: the
lengths differ since the capture has ten characters. -/
theorem classify_ne_nodate (now : Int) (date : List Char) (v : Int)
    (hlen : date.length = 10) :
    classify now date v ≠
      format_msg "INFO" ["version IRI does not have date information"] := by
  have hm : ∀ yrs : String, (yrs = "three" ∨ yrs = "two" ∨ yrs = "one") →
      old_version_msg (String.mk date) yrs ≠
        "version IRI does not have date information" := by
    intro yrs hyrs he
    have hl := congrArg String.length he
    rw [old_version_msg] at hl
    simp only [String.length_append] at hl
    have hdl : (String.mk date).length = 10 := by
      simpa [String.length] using hlen
    rcases hyrs with hy | hy | hy <;> rw [hy] at hl <;>
      simp [hdl, String.length] at hl <;> omega
  unfold classify format_msg
  split_ifs <;> intro h <;>
    simp only [CheckResult.formatted.injEq, List.cons.injEq, and_true,
      reduceCtorEq] at h
  · exact hm "three" (Or.inl rfl) h.2
  · exact hm "two" (Or.inr (Or.inl rfl)) h.2
  · exact hm "one" (Or.inr (Or.inr rfl)) h.2

/-- Counterexample to C2 as stated: on an input with two date-shaped
segments, the captured (and classified) date is not the first (leftmost)
one. -/
theorem C2_leftmost_capture_refuted :
    vsearch ("http://purl.obolibrary.org/obo/a/2020-01-01/b/2021-01-01/c".data)
        ≠ some ("2020-01-01".data) ∧
    vsearch ("http://purl.obolibrary.org/obo/a/2020-01-01/b/2021-01-01/c".data)
        = some ("2021-01-01".data) :=
  ⟨by decide, by decide⟩

/-- C2 (amended): the middle segment of the pattern is matched greedily, so
when the input contains two date-shaped segments (and nothing matchable
after the second), the last (rightmost) date is the one captured and
classified. -/
theorem C2_rightmost_capture (now : Int) (A1 D1 A2 D2 B : List Char)
    (hA1 : '\n' ∉ A1) (hD1 : dateShape D1 = true) (hA2 : '\n' ∉ A2)
    (hD2 : dateShape D2 = true) (hB : '/' ∉ B) :
    vsearch (oboIriStart ++ (A1 ++ '/' :: (D1 ++ '/' ::
        (A2 ++ '/' :: (D2 ++ '/' :: B))))) = some D2 ∧
    check_version_iri now (oboIriStart ++ (A1 ++ '/' :: (D1 ++ '/' ::
        (A2 ++ '/' :: (D2 ++ '/' :: B))))) =
      (match parseDate D2 with
       | some v => some (classify now D2 v)
       | none => none) := by
  have hsub : greedyDate (A1 ++ '/' :: (D1 ++ '/' ::
      (A2 ++ '/' :: (D2 ++ '/' :: B)))) = some D2 := by
    have hbig : A1 ++ '/' :: (D1 ++ '/' :: (A2 ++ '/' :: (D2 ++ '/' :: B)))
        = (A1 ++ '/' :: (D1 ++ '/' :: A2)) ++ ('/' :: (D2 ++ '/' :: B)) := by
      simp [List.append_assoc, List.cons_append]
    rw [hbig]
    apply greedyDate_append
    · simp [List.mem_append, List.mem_cons, hA1, hA2,
        (dateShape_elim D1 hD1).2.1, (by decide : ¬ ('\n' = '/'))]
    · exact greedyDate_at_date D2 B hD2 hB
  have hv := vsearch_start _ _ hsub
  refine ⟨hv, ?_⟩
  rw [check_version_iri, hv]

/-- Witness for C2 (amended) at the counterexample input. -/
theorem C2_rightmost_capture_witness :
    vsearch ("http://purl.obolibrary.org/obo/a/2020-01-01/b/2021-01-01/c".data)
      = some ("2021-01-01".data) := by
  have h := (C2_rightmost_capture 0 "a".data "2020-01-01".data "b".data
    "2021-01-01".data "c".data (by decide) (by decide) (by decide) (by decide)
    (by decide)).1
  have he : "http://purl.obolibrary.org/obo/a/2020-01-01/b/2021-01-01/c".data
      = oboIriStart ++ ("a".data ++ '/' :: ("2020-01-01".data ++ '/' ::
        ("b".data ++ '/' :: ("2021-01-01".data ++ '/' :: "c".data)))) := by
    decide
  rw [he]
  exact h

/-- C9: the pattern match is an unanchored substring search: any string
containing prefix ++ segment ++ slash ++ date ++ slash anywhere has a date
captured, so the no-date-information branch is not taken. -/
theorem C9_unanchored_substring (now : Int) (pre A D B : List Char)
    (hA : '\n' ∉ A) (hD : dateShape D = true) :
    (vsearch (pre ++ (oboIriStart ++ (A ++ '/' ::
        (D ++ '/' :: B))))).isSome = true ∧
    check_version_iri now (pre ++ (oboIriStart ++ (A ++ '/' ::
        (D ++ '/' :: B)))) ≠
      some (format_msg "INFO" ["version IRI does not have date information"]) := by
  have h1 : (greedyDate (A ++ '/' :: (D ++ '/' :: B))).isSome = true :=
    greedyDate_isSome A D B hA hD
  obtain ⟨d, hd⟩ := Option.isSome_iff_exists.mp h1
  have h2 : vsearch (oboIriStart ++ (A ++ '/' :: (D ++ '/' :: B))) = some d :=
    vsearch_start _ _ hd
  have h3 := vsearch_prepend pre _ (by rw [h2]; rfl)
  refine ⟨h3, ?_⟩
  obtain ⟨d', hd'⟩ := Option.isSome_iff_exists.mp h3
  simp only [check_version_iri, hd']
  cases hp : parseDate d' with
  | none => simp [hp]
  | some v =>
    simp only [hp, ne_eq, Option.some.injEq]
    intro hcon
    exact classify_ne_nodate now d' v (vsearch_length _ _ hd') hcon

/-- Witness for C9 with text before and after the embedded IRI. -/
theorem C9_unanchored_substring_witness :
    (vsearch ("xy ".data ++ (oboIriStart ++ ("go".data ++ '/' ::
        ("2019-06-01".data ++ '/' :: "go.owl yz".data))))).isSome = true :=
  (C9_unanchored_substring 0 "xy ".data "go".data "2019-06-01".data
    "go.owl yz".data (by decide) (by decide)).1

/-- Witness for C10 comparing a five-year-old and a one-year-old release
under the same clock. -/
theorem C10_severity_monotone_witness :
    sevRank (format_msg "INFO" [old_version_msg "2023-06-01" "one"]) ≤
      sevRank (format_msg "ERROR" [old_version_msg "2019-06-01" "three"]) :=
  C10_severity_monotone 63852883200 63695030400 63821260800
    ("http://purl.obolibrary.org/obo/go/2019-06-01/go.owl".data)
    ("http://purl.obolibrary.org/obo/go/2023-06-01/go.owl".data)
    ("2019-06-01".data) ("2023-06-01".data)
    (format_msg "ERROR" [old_version_msg "2019-06-01" "three"])
    (format_msg "INFO" [old_version_msg "2023-06-01" "one"])
    (by decide) (by decide) (by decide) (by decide) (by decide)
    (by decide) (by decide)
